import Mathlib

/-!
Verification of the layout-and-reconciliation engine of the bubble-chart
renderer (source: src/ReactBubbleChartD3.js).  The numeric values flowing
through the engine are JS numbers; they are modelled here as exact
rationals (ℚ), except for the trigonometric exit trajectory which is
modelled over ℝ.  The file lists all definitions first and all theorems
afterwards.
-/

namespace BubbleChart

/-! ### Tooltip positioning (adjustTooltipPosition, lines 481-539)

The positioner reads the tooltip box size (width = offsetWidth + 1,
height = offsetHeight), the configured margin, the chart area's offset
inside the container (origin.x = htmlNode.offsetLeft,
origin.y = htmlNode.offsetTop; both 0 for a square container) and the
container dimensions. -/

inductive Side where
  | left
  | right
deriving DecidableEq

structure HorizPlacement where
  leftPos : ℚ
  side : Side
deriving DecidableEq

/-- Horizontal branch of adjustTooltipPosition (source lines 518-530):
try right of the bubble, else left of the bubble, else right-aligned
against the container edge.  side starts as right and is set to
left only in the second branch. -/
def tooltipLeft (originX x r width margin containerWidth : ℚ) : HorizPlacement :=
  if originX + x + r + width + margin < containerWidth then
    ⟨x + r + margin, Side.right⟩
  else if 0 < originX + x - r - width - margin then
    ⟨x - r - width - margin, Side.left⟩
  else
    ⟨containerWidth - width - margin, Side.right⟩

/-- Vertical branch of adjustTooltipPosition (source lines 502-512):
clamp to margin when origin.y + y - height < 0, clamp against the bottom
when origin.y + y + height/2 exceeds the container height, otherwise
center on the bubble. -/
def tooltipTop (originY y height margin containerHeight : ℚ) : ℚ :=
  if originY + y - height < 0 then
    margin
  else if containerHeight < originY + y + height / 2 then
    containerHeight - height - margin
  else
    y - height / 2

structure LNode where
  dataId : String
  x : ℚ
  y : ℚ
  r : ℚ
deriving DecidableEq

/-- findNodeByDataId (source lines 431-434): linear search over the
current generation (update data concatenated with enter data) for the
node whose datum id matches. -/
def findNodeByDataId (nodes : List LNode) (id : String) : Option LNode :=
  nodes.find? (fun d => d.dataId == id)

structure TooltipPlacement where
  top : ℚ
  leftPos : ℚ
  side : Side
deriving DecidableEq

/-- adjustTooltipPosition (source lines 481-539).  A falsy/absent
tooltippedDataId or an id with no matching node returns early, producing
no placement. -/
def adjustTooltipPosition (nodes : List LNode) (tooltippedDataId : Option String)
    (originX originY width height margin containerWidth containerHeight : ℚ) :
    Option TooltipPlacement :=
  match tooltippedDataId with
  | none => none
  | some id =>
    match findNodeByDataId nodes id with
    | none => none
    | some d =>
      some ⟨tooltipTop originY d.y height margin containerHeight,
            (tooltipLeft originX d.x d.r width margin containerWidth).leftPos,
            (tooltipLeft originX d.x d.r width margin containerWidth).side⟩

/-- Visibility produced by _updateTooltip (source lines 436-447): the
tooltip is first hidden, then shown again only when the tooltipped id is
present and resolves to a node of the current generation. -/
def updateTooltipVisible (nodes : List LNode) (tooltippedDataId : Option String) : Bool :=
  match tooltippedDataId with
  | none => false
  | some id => (findNodeByDataId nodes id).isSome

/-! ### Keyed reconciliation (update, lines 277-280)

The engine binds the new generation to the existing elements with the
key function d => 'g' + d.data._id.  The d3 data join with a key
function and duplicate-free keys yields: update = new data whose key
matches a previously bound datum, enter = new data with no such match,
exit = previously bound data whose key matches no new datum. -/

structure DataItem where
  itemId : String
deriving DecidableEq

/-- Key function of the data join (source line 278): the string g
prepended to the datum id. -/
def dataKey (d : DataItem) : String := "g" ++ d.itemId

/-- Entering part of the keyed join: new data whose key is bound to no
previous datum. -/
def enterData (prev next : List DataItem) : List DataItem :=
  next.filter (fun d => !(prev.any (fun p => dataKey p == dataKey d)))

/-- Updating part of the keyed join: new data whose key is bound to a
previous datum. -/
def updateData (prev next : List DataItem) : List DataItem :=
  next.filter (fun d => prev.any (fun p => dataKey p == dataKey d))

/-- Exiting part of the keyed join: previous data whose key matches no
new datum. -/
def exitData (prev next : List DataItem) : List DataItem :=
  prev.filter (fun p => !(next.any (fun d => dataKey d == dataKey p)))

/-- An identity is present in a generation when some datum carries it. -/
def hasId (l : List DataItem) (id : String) : Prop :=
  ∃ d ∈ l, d.itemId = id

instance (l : List DataItem) (id : String) : Decidable (hasId l id) := by
  unfold hasId
  infer_instance

/-! ### Per-node visual attribute targets (update, lines 286-349)

Each record lists the attribute/style targets one code block assigns;
a field is none when that block does not touch the attribute. -/

structure AttrTargets where
  translate : Option (ℚ × ℚ) := none
  radius : Option ℚ := none
  opacity : Option ℚ := none
  leftPos : Option ℚ := none
  topPos : Option ℚ := none
  boxWidth : Option ℚ := none
  boxHeight : Option ℚ := none
  fontSize : Option ℚ := none
deriving DecidableEq

/-- Attributes set on a freshly appended entering circle before its
transition (source lines 315-323): placed at translate(d.x, d.y) with
radius 0.  The class and fill are styling, kept out of this record. -/
def enterCircleInitAttrs (d : LNode) : AttrTargets :=
  { translate := some (d.x, d.y), radius := some 0 }

/-- Targets of the entering circle's transition (source lines 324-328):
translate(d.x, d.y) again, radius d.r, opacity 1. -/
def enterCircleTransitionAttrs (d : LNode) : AttrTargets :=
  { translate := some (d.x, d.y), radius := some d.r, opacity := some 1 }

/-- Styles set on a freshly appended entering label before its
transition (source lines 339-345): the final box geometry with
opacity 0. -/
def enterLabelInitAttrs (d : LNode) : AttrTargets :=
  { leftPos := some (d.x - d.r), topPos := some (d.y - d.r),
    boxWidth := some (2 * d.r), boxHeight := some (2 * d.r),
    opacity := some 0 }

/-- Targets of the entering label's transition (source lines 346-349):
opacity 1 and, when a fontSizeFactor is configured, a radius-derived
font size.  No positional style is touched. -/
def enterLabelTransitionAttrs (fontFactor : Option ℚ) (d : LNode) : AttrTargets :=
  { opacity := some 1, fontSize := fontFactor.map (fun f => f * d.r) }

/-- Targets of the updating circle's transition (source lines 286-293). -/
def updateCircleAttrs (d : LNode) : AttrTargets :=
  { translate := some (d.x, d.y), radius := some d.r, opacity := some 1 }

/-! ### Transition timing (constructor lines 51-52, update lines 286-388)

Each transition carries a duration and a per-index delay function. -/

structure TransitionTiming where
  duration : ℚ
  delayAt : ℕ → ℚ

/-- Duration resolved by the constructor (line 51): 500 unless
configured. -/
def durationOf (configured : Option ℚ) : ℚ := configured.getD 500

/-- Per-node delay unit resolved by the constructor (line 52): 7 unless
configured. -/
def delayOf (configured : Option ℚ) : ℚ := configured.getD 7

/-- Timing of the updating circles' transition (lines 287-289):
duration, with delay i * delay. -/
def updateCircleTiming (dur del : ℚ) : TransitionTiming :=
  ⟨dur, fun i => (i : ℚ) * del⟩

/-- Timing of the updating labels' transition (lines 297-299). -/
def updateLabelTiming (dur del : ℚ) : TransitionTiming :=
  ⟨dur, fun i => (i : ℚ) * del⟩

/-- Timing of the entering circles' transition (lines 324-325):
duration * 1.2 and no delay call, so d3's default delay 0. -/
def enterCircleTiming (dur : ℚ) : TransitionTiming :=
  ⟨dur * 1.2, fun _ => 0⟩

/-- Timing of the entering labels' transition (lines 346-347). -/
def enterLabelTiming (dur : ℚ) : TransitionTiming :=
  ⟨dur * 1.2, fun _ => 0⟩

/-- Timing of the exiting circles' transition (lines 355-356): duration
with d3's default delay 0. -/
def exitCircleTiming (dur : ℚ) : TransitionTiming :=
  ⟨dur, fun _ => 0⟩

/-- Timing of the exiting labels' transition (lines 369-370). -/
def exitLabelTiming (dur : ℚ) : TransitionTiming :=
  ⟨dur, fun _ => 0⟩

/-! ### Circle fill (getCircleColor lines 186-192, legacy line 789)

Colors are modelled as optional strings; none models the JS undefined
that a style callback may return (d3 then removes the style).  The
current engine checks the truthiness of the configured override; the
legacy variant checks only the selected flag. -/

/-- getCircleColor (source lines 186-192): the override applies only
when the node is selected and an override color is configured,
otherwise the quantized scale color is used. -/
def getCircleColor (selected : Bool) (selectedColor scaleFill : Option String) :
    Option String :=
  if selected && selectedColor.isSome then selectedColor else scaleFill

/-- Legacy circle fill (source line 789): selected nodes always get the
configured override, configured or not. -/
def legacyCircleFill (selected : Bool) (selectedColor scaleFill : Option String) :
    Option String :=
  if selected then selectedColor else scaleFill

/-! ### Exit trajectory (update, lines 354-388)

Exiting nodes keep their last bound position (x, y); the canvas is the
square of side diameter D.  The trigonometric computation is modelled
over ℝ. -/

/-- Two-argument arctangent with the semantics of JS Math.atan2(y, x):
the angle of the point (x, y), in (-pi, pi]. -/
noncomputable def atan2 (y x : ℝ) : ℝ :=
  if 0 < x then Real.arctan (y / x)
  else if x < 0 then
    (if 0 ≤ y then Real.arctan (y / x) + Real.pi else Real.arctan (y / x) - Real.pi)
  else
    (if 0 < y then Real.pi / 2 else if y < 0 then -(Real.pi / 2) else 0)

structure CircleExitTarget where
  destX : ℝ
  destY : ℝ
  radiusTarget : ℝ
  removed : Bool

/-- Exit transition of a circle (source lines 354-366): project toward
the canvas edge along the ray from the canvas center, shrink the radius
to 0, then remove the element. -/
noncomputable def circleExit (diameter x y : ℝ) : CircleExitTarget :=
  let dy := y - diameter / 2
  let dx := x - diameter / 2
  let theta := atan2 dy dx
  let destX := diameter * (1 + Real.cos theta) / 2
  let destY := diameter * (1 + Real.sin theta) / 2
  ⟨destX, destY, 0, true⟩

structure LabelExitTarget where
  topPos : ℝ
  leftPos : ℝ
  opacityTarget : ℝ
  widthTarget : ℝ
  heightTarget : ℝ
  removed : Bool

/-- Exit transition of a label (source lines 368-388): same destination
point, opacity and box size driven to 0, then the element is removed. -/
noncomputable def labelExit (diameter x y : ℝ) : LabelExitTarget :=
  let dy := y - diameter / 2
  let dx := x - diameter / 2
  let theta := atan2 dy dx
  let destY := diameter * (1 + Real.sin theta) / 2
  let destX := diameter * (1 + Real.cos theta) / 2
  ⟨destY, destX, 0, 0, 0, true⟩

/-! ### Quantized color scale (update, lines 257-270)

The engine builds its color scales with scaleQuantize over the domain
[x0, x1] and a palette of N buckets.  scaleQuantize keeps n = N - 1
inner thresholds domain[i] = ((i+1)*x1 - (i-n)*x0)/(n+1) and maps v to
range[bisect(domain, v, 0, n)], where bisect on an ascending array
returns the number of elements that are ≤ v (bisectRight).  Only a
division by n+1 occurs, so a degenerate domain raises no division
error. -/

/-- Threshold number i of scaleQuantize for N palette buckets: with
n = N - 1, the value ((i+1)*x1 - (i-n)*x0) / (n+1). -/
def quantizeThreshold (x0 x1 : ℚ) (N : ℕ) (i : ℕ) : ℚ :=
  (((i : ℚ) + 1) * x1 - ((i : ℚ) - ((N - 1 : ℕ) : ℚ)) * x0) / (((N - 1 : ℕ) : ℚ) + 1)

/-- Inner thresholds of scaleQuantize for N palette buckets. -/
def quantizeThresholds (x0 x1 : ℚ) (N : ℕ) : List ℚ :=
  (List.range (N - 1)).map (quantizeThreshold x0 x1 N)

/-- bisectRight on an ascending array: the count of elements ≤ v. -/
def bisectRight (a : List ℚ) (v : ℚ) : ℕ :=
  a.countP (fun t => decide (t ≤ v))

/-- Bucket index scaleQuantize assigns to v: the bisect position among
the thresholds. -/
def quantizeBucket (x0 x1 : ℚ) (N : ℕ) (v : ℚ) : ℕ :=
  bisectRight (quantizeThresholds x0 x1 N) v

end BubbleChart

namespace BubbleChart

/-! ### Helper lemmas -/

theorem dataKey_inj (a b : DataItem) : dataKey a = dataKey b ↔ a.itemId = b.itemId := by
  constructor
  · intro hk
    have hd := congrArg String.data hk
    simpa [dataKey, String.data_append, String.ext_iff] using hd
  · intro hi
    simp [dataKey, hi]

theorem any_key_eq (l : List DataItem) (d : DataItem) :
    (l.any (fun p => dataKey p == dataKey d)) = true ↔ hasId l d.itemId := by
  rw [List.any_eq_true]
  constructor
  · rintro ⟨p, hp, hk⟩
    exact ⟨p, hp, (dataKey_inj p d).mp (by simpa using hk)⟩
  · rintro ⟨p, hp, hk⟩
    exact ⟨p, hp, by simp [dataKey, hk]⟩

theorem countP_range_lt (m c : ℕ) :
    (List.range m).countP (fun i => decide (i < c)) = min m c := by
  induction m with
  | zero => simp
  | succ m ih =>
    rw [List.range_succ, List.countP_append, ih, List.countP_cons]
    by_cases h : m < c
    · simp only [List.countP_nil, decide_eq_true_eq, h, if_true]
      omega
    · simp only [List.countP_nil, decide_eq_true_eq, h, if_false]
      omega

theorem threshold_eq (x0 x1 : ℚ) (N : ℕ) (hN : 1 ≤ N) (i : ℕ) :
    quantizeThreshold x0 x1 N i = x0 + ((i : ℚ) + 1) * (x1 - x0) / (N : ℚ) := by
  unfold quantizeThreshold
  have h1 : ((N - 1 : ℕ) : ℚ) = (N : ℚ) - 1 := by
    simpa using Nat.cast_sub (R := ℚ) hN
  have hN0 : (N : ℚ) ≠ 0 := by
    have h2 : (1 : ℚ) ≤ (N : ℚ) := by exact_mod_cast hN
    linarith
  rw [h1]
  have h3 : (N : ℚ) - 1 + 1 = (N : ℚ) := by ring
  rw [h3]
  field_simp
  ring

theorem threshold_le_iff (x0 x1 v : ℚ) (N : ℕ) (h : x0 < x1) (hN : 1 ≤ N) (i : ℕ) :
    (x0 + ((i : ℚ) + 1) * (x1 - x0) / (N : ℚ) ≤ v) ↔
      (i < Int.toNat ⌊(N : ℚ) * (v - x0) / (x1 - x0)⌋) := by
  have hx : (0 : ℚ) < x1 - x0 := sub_pos.mpr h
  have hNQ : (0 : ℚ) < (N : ℚ) := by
    have h0 : 0 < N := hN
    exact_mod_cast h0
  have hA : (x0 + ((i : ℚ) + 1) * (x1 - x0) / (N : ℚ) ≤ v) ↔
      ((i : ℚ) + 1 ≤ (N : ℚ) * (v - x0) / (x1 - x0)) := by
    constructor
    · intro hh
      rw [le_div_iff₀ hx]
      have h2 : ((i : ℚ) + 1) * (x1 - x0) / (N : ℚ) ≤ v - x0 := by linarith
      have h3 := (div_le_iff₀ hNQ).mp h2
      nlinarith [h3]
    · intro hh
      rw [le_div_iff₀ hx] at hh
      have h2 : ((i : ℚ) + 1) * (x1 - x0) / (N : ℚ) ≤ v - x0 := by
        rw [div_le_iff₀ hNQ]
        nlinarith [hh]
      linarith
  rw [hA]
  have hB : ((i : ℚ) + 1 ≤ (N : ℚ) * (v - x0) / (x1 - x0)) ↔
      ((i : ℤ) + 1 ≤ ⌊(N : ℚ) * (v - x0) / (x1 - x0)⌋) := by
    rw [Int.le_floor]
    norm_cast
  rw [hB, Int.add_one_le_iff, Int.lt_toNat]

theorem quantizeBucket_eq (x0 x1 v : ℚ) (N : ℕ) (h : x0 < x1) (hN : 1 ≤ N) :
    quantizeBucket x0 x1 N v =
      min (N - 1) (Int.toNat ⌊(N : ℚ) * (v - x0) / (x1 - x0)⌋) := by
  unfold quantizeBucket bisectRight quantizeThresholds
  rw [List.countP_map]
  rw [List.countP_congr (q := fun i =>
        decide (i < Int.toNat ⌊(N : ℚ) * (v - x0) / (x1 - x0)⌋))]
  · exact countP_range_lt _ _
  · intro i hi
    simp only [Function.comp_apply, decide_eq_true_eq]
    rw [threshold_eq x0 x1 N hN i]
    exact threshold_le_iff x0 x1 v N h hN i

/-! ### Claim theorems -/

/-- C1: horizontal tooltip placement.  The claim's second-branch condition
reads "stays ≥ 0" and its first-branch condition "fits within the
container width"; the code uses strict inequalities for both, so at the
boundaries the code takes a different branch than the claim states. -/
theorem tooltipLeft_boundary_counterexample :
    tooltipLeft 0 125 20 100 5 200 = ⟨95, Side.right⟩ ∧
    (0 : ℚ) ≤ 125 - 20 - 100 - 5 ∧
    tooltipLeft 0 375 20 100 5 500 = ⟨250, Side.left⟩ ∧
    375 + 20 + 100 + 5 ≤ (500 : ℚ) := by
  refine ⟨?_, by norm_num, ?_, by norm_num⟩ <;>
    simp [tooltipLeft] <;> norm_num

/-- C1 (amended): with the chart area's offset zero (square container),
the tooltip goes to the right of the node at left = x + r + margin when
x + r + width + margin < containerWidth strictly; else to the left at
left = x - r - width - margin when that value is strictly positive
(> 0, not ≥ 0); else it is right-aligned at
containerWidth - width - margin.  The side flag is left exactly when the
second branch is taken, and Scenario C (container 500, margin 5, tooltip
width 100, node x = 480, r = 20) yields side = left. -/
theorem tooltipLeft_spec (x r w m W : ℚ) :
    tooltipLeft 0 x r w m W =
      (if x + r + w + m < W then ⟨x + r + m, Side.right⟩
       else if 0 < x - r - w - m then ⟨x - r - w - m, Side.left⟩
       else ⟨W - w - m, Side.right⟩ : HorizPlacement) ∧
    ((tooltipLeft 0 x r w m W).side = Side.left ↔
      (W ≤ x + r + w + m ∧ 0 < x - r - w - m)) ∧
    (tooltipLeft 0 480 20 100 5 500).side = Side.left := by
  refine ⟨?_, ?_, by simp [tooltipLeft]; norm_num⟩
  · simp only [tooltipLeft, zero_add]
  · simp only [tooltipLeft, zero_add]
    split
    · rename_i h
      simp [not_le.mpr h]
    · rename_i h
      split
      · rename_i h2
        simp [not_lt.mp h, h2]
      · rename_i h2
        simp [h2]

/-- C2: vertical tooltip placement.  The claim clamps the top to margin
when the centered placement y - height/2 would be negative; the code
clamps already when y - height < 0.  At y = 30, height = 40, margin = 5,
containerHeight = 500 the centered top 10 is in bounds, yet the code
returns 5. -/
theorem tooltipTop_counterexample :
    tooltipTop 0 30 40 5 500 = 5 ∧
    (0 : ℚ) ≤ 30 - 40 / 2 ∧
    30 + 40 / 2 ≤ (500 : ℚ) ∧
    (5 : ℚ) ≠ 30 - 40 / 2 := by
  refine ⟨?_, by norm_num, by norm_num, by norm_num⟩
  simp [tooltipTop]; norm_num

/-- C2 (amended): with the chart area's offset zero, the tooltip's top is
the node-centered y - height/2, except that it is clamped to margin
when y - height < 0 (the code clamps once the node center is within one
tooltip height of the top edge, not when the centered top would be above
0), this clamp being checked first; and clamped to
containerHeight - height - margin when the centered bottom
y + height/2 would exceed the container height. -/
theorem tooltipTop_spec (y h m H : ℚ) :
    tooltipTop 0 y h m H =
      (if y - h < 0 then m
       else if H < y + h / 2 then H - h - m
       else y - h / 2) ∧
    tooltipTop 0 30 40 5 500 = 5 := by
  constructor
  · simp only [tooltipTop, zero_add]
  · simp [tooltipTop]; norm_num

/-- C3: every exiting node with last position (x, y) on a canvas of side
D flies to destX = D * (1 + cos theta) / 2 and
destY = D * (1 + sin theta) / 2 with theta = atan2 (y - D/2) (x - D/2),
while its circle radius and its label opacity (and box) are driven to 0
and both elements are removed. -/
theorem exit_trajectory (D x y : ℝ) :
    circleExit D x y =
      ⟨D * (1 + Real.cos (atan2 (y - D / 2) (x - D / 2))) / 2,
       D * (1 + Real.sin (atan2 (y - D / 2) (x - D / 2))) / 2, 0, true⟩ ∧
    labelExit D x y =
      ⟨D * (1 + Real.sin (atan2 (y - D / 2) (x - D / 2))) / 2,
       D * (1 + Real.cos (atan2 (y - D / 2) (x - D / 2))) / 2, 0, 0, 0, true⟩ ∧
    (circleExit D x y).radiusTarget = 0 ∧
    (labelExit D x y).opacityTarget = 0 ∧
    (circleExit D x y).removed = true ∧
    (labelExit D x y).removed = true := by
  exact ⟨rfl, rfl, rfl, rfl, rfl, rfl⟩

/-- C4: the keyed reconciliation classifies each identity as Entering
iff present only in the new generation, Updating iff present in both,
Exiting iff present only in the previous one; and replacing the
generation a, b with b, c reports Exiting = a, Updating = b,
Entering = c. -/
theorem reconcile_classification :
    (∀ (prev next : List DataItem) (id : String),
      (hasId (enterData prev next) id ↔ hasId next id ∧ ¬ hasId prev id) ∧
      (hasId (updateData prev next) id ↔ hasId next id ∧ hasId prev id) ∧
      (hasId (exitData prev next) id ↔ hasId prev id ∧ ¬ hasId next id)) ∧
    exitData [⟨"a"⟩, ⟨"b"⟩] [⟨"b"⟩, ⟨"c"⟩] = [⟨"a"⟩] ∧
    updateData [⟨"a"⟩, ⟨"b"⟩] [⟨"b"⟩, ⟨"c"⟩] = [⟨"b"⟩] ∧
    enterData [⟨"a"⟩, ⟨"b"⟩] [⟨"b"⟩, ⟨"c"⟩] = [⟨"c"⟩] := by
  refine ⟨?_, by decide, by decide, by decide⟩
  intro prev next id
  refine ⟨?_, ?_, ?_⟩
  · unfold enterData hasId
    simp only [List.mem_filter, Bool.not_eq_eq_eq_not, Bool.not_true]
    constructor
    · rintro ⟨d, ⟨hdn, hany⟩, hid⟩
      refine ⟨⟨d, hdn, hid⟩, ?_⟩
      intro hprev
      have : (prev.any (fun p => dataKey p == dataKey d)) = true :=
        (any_key_eq prev d).mpr (hid ▸ hprev)
      simp [this] at hany
    · rintro ⟨⟨d, hdn, hid⟩, hnp⟩
      refine ⟨d, ⟨hdn, ?_⟩, hid⟩
      rw [Bool.eq_false_iff]
      intro hany
      exact hnp (hid ▸ (any_key_eq prev d).mp hany)
  · unfold updateData hasId
    simp only [List.mem_filter]
    constructor
    · rintro ⟨d, ⟨hdn, hany⟩, hid⟩
      exact ⟨⟨d, hdn, hid⟩, hid ▸ (any_key_eq prev d).mp hany⟩
    · rintro ⟨⟨d, hdn, hid⟩, hprev⟩
      exact ⟨d, ⟨hdn, (any_key_eq prev d).mpr (hid ▸ hprev)⟩, hid⟩
  · unfold exitData hasId
    simp only [List.mem_filter, Bool.not_eq_eq_eq_not, Bool.not_true]
    constructor
    · rintro ⟨d, ⟨hdp, hany⟩, hid⟩
      refine ⟨⟨d, hdp, hid⟩, ?_⟩
      intro hnext
      have : (next.any (fun p => dataKey p == dataKey d)) = true :=
        (any_key_eq next d).mpr (hid ▸ hnext)
      simp [this] at hany
    · rintro ⟨⟨d, hdp, hid⟩, hnn⟩
      refine ⟨d, ⟨hdp, ?_⟩, hid⟩
      rw [Bool.eq_false_iff]
      intro hany
      exact hnn (hid ▸ (any_key_eq next d).mp hany)

/-- C5: an entering node starts at radius 0 (circle) and opacity 0
(label), is placed at its final computed position from the start, and
its transitions move nothing: the circle transition's translate target
equals the initial translate, and the label transition leaves
left/top/width/height untouched while the initial label box already
carries the final geometry. -/
theorem entering_initial_state (fontFactor : Option ℚ) (d : LNode) :
    (enterCircleInitAttrs d).radius = some 0 ∧
    (enterCircleInitAttrs d).translate = some (d.x, d.y) ∧
    (enterCircleTransitionAttrs d).translate = (enterCircleInitAttrs d).translate ∧
    (enterCircleTransitionAttrs d).radius = some d.r ∧
    (enterLabelInitAttrs d).opacity = some 0 ∧
    (enterLabelInitAttrs d).leftPos = some (d.x - d.r) ∧
    (enterLabelInitAttrs d).topPos = some (d.y - d.r) ∧
    (enterLabelTransitionAttrs fontFactor d).leftPos = none ∧
    (enterLabelTransitionAttrs fontFactor d).topPos = none ∧
    (enterLabelTransitionAttrs fontFactor d).boxWidth = none ∧
    (enterLabelTransitionAttrs fontFactor d).boxHeight = none ∧
    (enterLabelInitAttrs d).leftPos = (updateCircleAttrs d).translate.map (fun p => p.1 - d.r) ∧
    (enterLabelInitAttrs d).topPos = (updateCircleAttrs d).translate.map (fun p => p.2 - d.r) := by
  refine ⟨rfl, rfl, rfl, rfl, rfl, rfl, rfl, rfl, rfl, rfl, rfl, rfl, rfl⟩

/-- C6: the claim states every transition, entering included, runs for
the configured duration (default 500) with delay index * perNodeDelay
(default 7).  At the defaults the entering circles' transition runs for
600 time-units, not 500, and its delay at index 1 is 0, not 7. -/
theorem transition_timing_counterexample :
    (enterCircleTiming (durationOf none)).duration = 600 ∧
    durationOf none = 500 ∧
    (600 : ℚ) ≠ 500 ∧
    (enterCircleTiming (durationOf none)).delayAt 1 = 0 ∧
    1 * delayOf none = 7 ∧
    (0 : ℚ) ≠ 7 := by
  refine ⟨?_, rfl, by norm_num, rfl, by norm_num [delayOf], by norm_num⟩
  norm_num [enterCircleTiming, durationOf]

/-- C6 (amended): updating transitions (circles and labels) run for the
configured duration (default 500) with delay index * perNodeDelay
(default 7, index in new-generation iteration order); entering
transitions instead run for 1.2 times the duration with no stagger
delay, and exiting transitions run for the duration with no stagger
delay. -/
theorem transition_timing_spec (dur del : ℚ) :
    (updateCircleTiming dur del).duration = dur ∧
    (∀ i : ℕ, (updateCircleTiming dur del).delayAt i = (i : ℚ) * del) ∧
    (updateLabelTiming dur del).duration = dur ∧
    (∀ i : ℕ, (updateLabelTiming dur del).delayAt i = (i : ℚ) * del) ∧
    (enterCircleTiming dur).duration = dur * (6 / 5) ∧
    (∀ i : ℕ, (enterCircleTiming dur).delayAt i = 0) ∧
    (enterLabelTiming dur).duration = dur * (6 / 5) ∧
    (∀ i : ℕ, (enterLabelTiming dur).delayAt i = 0) ∧
    (exitCircleTiming dur).duration = dur ∧
    (∀ i : ℕ, (exitCircleTiming dur).delayAt i = 0) ∧
    (exitLabelTiming dur).duration = dur ∧
    (∀ i : ℕ, (exitLabelTiming dur).delayAt i = 0) ∧
    durationOf none = 500 ∧ delayOf none = 7 := by
  refine ⟨rfl, fun i => rfl, rfl, fun i => rfl, ?_, fun i => rfl, ?_,
    fun i => rfl, rfl, fun i => rfl, rfl, fun i => rfl, rfl, rfl⟩ <;>
    norm_num [enterCircleTiming, enterLabelTiming]

/-- C7: on a non-degenerate domain with N ordered buckets, the
quantizer sends v to bucket floor(N * (v - x0) / (x1 - x0)) clamped to
the interval from 0 to N - 1; hence x0 lands in bucket 0, x1 in bucket
N - 1, and the bucket index is monotone in v. -/
theorem colorQuantizer_spec (x0 x1 v : ℚ) (N : ℕ) (h : x0 < x1) (hN : 1 ≤ N) :
    ((quantizeBucket x0 x1 N v : ℤ) =
      max 0 (min ⌊(N : ℚ) * (v - x0) / (x1 - x0)⌋ ((N : ℤ) - 1))) ∧
    quantizeBucket x0 x1 N x0 = 0 ∧
    quantizeBucket x0 x1 N x1 = N - 1 ∧
    (∀ u w : ℚ, u ≤ w → quantizeBucket x0 x1 N u ≤ quantizeBucket x0 x1 N w) := by
  have hx : (0 : ℚ) < x1 - x0 := sub_pos.mpr h
  refine ⟨?_, ?_, ?_, ?_⟩
  · rw [quantizeBucket_eq x0 x1 v N h hN]
    generalize ⌊(N : ℚ) * (v - x0) / (x1 - x0)⌋ = k
    omega
  · rw [quantizeBucket_eq x0 x1 x0 N h hN]
    simp
  · rw [quantizeBucket_eq x0 x1 x1 N h hN]
    have hz : (N : ℚ) * (x1 - x0) / (x1 - x0) = (N : ℚ) := by
      field_simp
    rw [hz, Int.floor_natCast, Int.toNat_natCast]
    omega
  · intro u w huw
    rw [quantizeBucket_eq x0 x1 u N h hN, quantizeBucket_eq x0 x1 w N h hN]
    refine min_le_min le_rfl (Int.toNat_le_toNat (Int.floor_le_floor ?_))
    rw [div_le_div_iff_of_pos_right hx]
    have hu : u - x0 ≤ w - x0 := by linarith
    have hNQ : (0 : ℚ) ≤ (N : ℚ) := by positivity
    exact mul_le_mul_of_nonneg_left hu hNQ

/-- C7 witness: domain from 0 to 4 with 4 buckets; 0 lands in bucket 0
and 4 in bucket 3. -/
theorem colorQuantizer_spec_witness :
    (0 : ℚ) < 4 ∧ (1 : ℕ) ≤ 4 ∧
    quantizeBucket 0 4 4 0 = 0 ∧ quantizeBucket 0 4 4 4 = 3 :=
  ⟨by norm_num, by norm_num,
   (colorQuantizer_spec 0 4 0 4 (by norm_num) (by norm_num)).2.1,
   by simpa using (colorQuantizer_spec 0 4 4 4 (by norm_num) (by norm_num)).2.2.1⟩

/-- C8: the claim sends every value of a degenerate domain to bucket 0.
With a two-bucket palette, domain pinned to min = max = 0 and value 0,
the quantizer lands in bucket 1 (the last bucket), not 0. -/
theorem quantize_degenerate_counterexample :
    quantizeBucket 0 0 2 0 = 1 ∧ (1 : ℕ) ≠ 0 := by
  have h2 : quantizeThresholds 0 0 2 = [0] := by
    unfold quantizeThresholds quantizeThreshold
    rw [show List.range (2 - 1) = [0] from rfl]
    norm_num
  constructor
  · unfold quantizeBucket bisectRight
    rw [h2]
    norm_num
  · decide

/-- C8 (amended): a degenerate domain (min = max) raises no division
error (the embedded scale is total: only a division by the bucket count
occurs), and every value at or above the domain point resolves to the
last bucket N - 1 while values strictly below it resolve to bucket 0;
Scenario D with value 0 therefore lands in the last bucket, which is
bucket 0 only when the palette has a single color. -/
theorem quantize_degenerate (c v : ℚ) (N : ℕ) :
    quantizeBucket c c N v = if c ≤ v then N - 1 else 0 := by
  have hthr : ∀ i : ℕ, quantizeThreshold c c N i = c := by
    intro i
    unfold quantizeThreshold
    have hden : (0 : ℚ) < ((N - 1 : ℕ) : ℚ) + 1 := by positivity
    field_simp
    ring
  unfold quantizeBucket bisectRight quantizeThresholds
  rw [List.countP_map]
  by_cases hcv : c ≤ v
  · rw [if_pos hcv]
    have hall : ∀ a ∈ List.range (N - 1),
        ((fun t => decide (t ≤ v)) ∘ quantizeThreshold c c N) a = true := by
      intro a ha
      simp [hthr a, hcv]
    have hlen := List.countP_eq_length.mpr hall
    rw [hlen, List.length_range]
  · rw [if_neg hcv]
    apply List.countP_eq_zero.mpr
    intro a ha
    simp [hthr a, hcv]

/-- C9: the claim includes selected nodes with no configured
selectedColor, where the current engine falls back to the scale color
while the legacy variant produces the absent override. -/
theorem circle_fill_counterexample :
    getCircleColor true none (some "#112233") = some "#112233" ∧
    legacyCircleFill true none (some "#112233") = none ∧
    getCircleColor true none (some "#112233") ≠
      legacyCircleFill true none (some "#112233") := by
  refine ⟨rfl, rfl, by decide⟩

/-- C9 (amended): the current engine's circle fill agrees with the
legacy variant's for every unselected node and for every selected node
with a configured selectedColor override; only a selected node with no
configured override diverges. -/
theorem circle_fill_agree (selected : Bool) (selectedColor scaleFill : Option String)
    (hconf : selected = false ∨ selectedColor.isSome) :
    getCircleColor selected selectedColor scaleFill =
      legacyCircleFill selected selectedColor scaleFill := by
  cases hconf with
  | inl h => subst h; rfl
  | inr h =>
    cases selected with
    | false => rfl
    | true => simp [getCircleColor, legacyCircleFill, h]

/-- C9 witness: a selected node with the override configured. -/
theorem circle_fill_agree_witness :
    ((true : Bool) = false ∨ (some "#ff0000" : Option String).isSome) ∧
    getCircleColor true (some "#ff0000") (some "#00ff00") =
      legacyCircleFill true (some "#ff0000") (some "#00ff00") :=
  ⟨by decide, circle_fill_agree true (some "#ff0000") (some "#00ff00") (by decide)⟩

/-- C10: a tooltipped identity absent from the current generation
produces no tooltip placement and leaves the tooltip hidden. -/
theorem adjustTooltipPosition_absent
    (nodes : List LNode) (id : String)
    (ox oy w h m W H : ℚ)
    (habs : ∀ d ∈ nodes, d.dataId ≠ id) :
    adjustTooltipPosition nodes (some id) ox oy w h m W H = none ∧
    updateTooltipVisible nodes (some id) = false := by
  have hfind : findNodeByDataId nodes id = none := by
    rw [findNodeByDataId, List.find?_eq_none]
    intro d hd
    simpa using habs d hd
  constructor
  · simp [adjustTooltipPosition, hfind]
  · simp [updateTooltipVisible, hfind]

/-- C10 witness: concrete generation with node a, target id b. -/
theorem adjustTooltipPosition_absent_witness :
    (∀ d ∈ [({ dataId := "a", x := 1, y := 2, r := 3 } : LNode)], d.dataId ≠ "b") ∧
    (adjustTooltipPosition [({ dataId := "a", x := 1, y := 2, r := 3 } : LNode)]
      (some "b") 0 0 100 40 5 500 500 = none ∧
     updateTooltipVisible [({ dataId := "a", x := 1, y := 2, r := 3 } : LNode)]
      (some "b") = false) :=
  ⟨by decide, adjustTooltipPosition_absent _ "b" 0 0 100 40 5 500 500 (by decide)⟩

end BubbleChart
